import Mathlib

/-!
Shallow embedding of `src/sdk/program/src/vote_group_gen.rs`
(`VoteGroupGenerator`: committee selection by ring stepping).

Modelling conventions:
* `Pubkey` (a 32-byte value, defined outside `src/`) is modelled as `Nat`;
  the 32-byte arrays embed injectively into `Nat`, and `Pubkey` equality is
  byte-array equality.  `Pubkey::new_from_array(k.to_bytes())` and
  `Pubkey::new(&k.to_bytes())` are identity round-trips, so they disappear.
  `to_string` (base58 of the 32 bytes) is injective, so the source's string
  comparison with `SAFECOIN_NEVER_VOTER` is modelled as comparison with the
  base58 decoding of that constant.
* The input `HashMap<Pubkey, Pubkey>` is modelled by the list of its keys in
  iteration order (the associated values are never read); keys of a map are
  distinct, but none of the development below needs that.
* Rust's `%` on unsigned integers panics on a zero divisor; a panic is
  modelled as `none` (`rustMod`).  Out-of-bounds indexing (also a panic) is
  modelled by `List.get?` returning `none`.
* `temp.len() as u32` truncates: it is modelled as `% 2 ^ 32`.
* `u64` values stay below `2 ^ 64` throughout (`%`/xor never overflow), so
  they are modelled as plain `Nat`.
-/

abbrev Pubkey := Nat

/-- Base58 decoding of the source constant
`"83E5RMejo6d98FV1EAXTx5t4bvoDMoxE4DboDee3VJsu"` (a 32-byte value). -/
def SAFECOIN_NEVER_VOTER : Pubkey :=
  47301597474950347069788922510488318135852550980824446379724083681712031719628

def OPTIMAL_VOTE_GROUP_SIZE : Nat := 11

/-- The fixed table iterated in `VoteGroupGenerator::new` (reproduced
verbatim; 51, 57 and 87 are not prime). -/
def DISTANCE_TABLE : List Nat :=
  [2, 3, 5, 7, 11, 13, 17, 23, 29, 31, 37, 41, 43, 47, 51, 53, 57, 59, 61,
   67, 71, 73, 79, 83, 87, 89, 97, 101, 103]

structure VoteGroupGenerator where
  possible_voters : List Pubkey
  all_distance : List Nat
  group_size : Nat
deriving DecidableEq, Repr

/-- Rust `a % b` on unsigned integers: panics (modelled as `none`) when
`b = 0`. -/
def rustMod (a b : Nat) : Option Nat :=
  if b = 0 then none else some (a % b)

/-- `VoteGroupGenerator::new`: keep every key other than the sentinel (in
iteration order), then build `all_distance` as `1` followed by the table
entries `val` with `len > val && len % val != 0`, where
`len = temp.len() as u32`. -/
def VoteGroupGenerator.new (keys : List Pubkey) (size : Nat) :
    VoteGroupGenerator :=
  let temp := keys.filter (fun k => k != SAFECOIN_NEVER_VOTER)
  let len := temp.length % 2 ^ 32
  { possible_voters := temp
    all_distance := 1 :: DISTANCE_TABLE.filter
      (fun val => decide (len > val) && (len % val != 0))
    group_size := size }

/-- `VoteGroupGenerator::new_dummy`: build from an empty map with size 1. -/
def VoteGroupGenerator.new_dummy : VoteGroupGenerator :=
  VoteGroupGenerator.new [] 1

/-- `ring_shift`: `(a + b) % possible_voters.len()`.  (In the source the `%`
would panic on an empty voter list, but its only caller reaches it with a
non-empty list; the caller's model yields `none` on the empty list before
and, via `List.get?`, after this point.) -/
def VoteGroupGenerator.ring_shift (g : VoteGroupGenerator) (a b : Nat) :
    Nat :=
  (a + b) % g.possible_voters.length

/-- The `for _ in 0..(group_size - 1)` loop of `in_group_for_seed`:
shift by `dist`, test, short-circuit on a hit; `fuel` is the number of
remaining iterations. -/
def VoteGroupGenerator.in_group_loop (g : VoteGroupGenerator)
    (test_key : Pubkey) (dist : Nat) : Nat → Nat → Option Bool
  | _, 0 => some false
  | loc, fuel + 1 =>
    let loc2 := g.ring_shift loc dist
    match g.possible_voters.get? loc2 with
    | none => none
    | some loc_key =>
      if test_key = loc_key then some true
      else g.in_group_loop test_key dist loc2 fuel

/-- `in_group_for_seed`.  Faithful to the source: `seed % voters_len` panics
(`none`) when the voter list is empty; indexing panics when out of bounds;
when `group_size > 1` the stride is `all_distance[seed % all_distance.len()]`
and the loop body runs `group_size - 1` times. -/
def VoteGroupGenerator.in_group_for_seed (g : VoteGroupGenerator)
    (seed : Nat) (test_key : Pubkey) : Option Bool :=
  match rustMod seed g.possible_voters.length with
  | none => none
  | some loc =>
    match g.possible_voters.get? loc with
    | none => none
    | some first_key =>
      if test_key = first_key then some true
      else if g.group_size > 1 then
        match rustMod seed g.all_distance.length with
        | none => none
        | some choose_dist =>
          match g.all_distance.get? choose_dist with
          | none => none
          | some dist => g.in_group_loop test_key dist loc (g.group_size - 1)
      else some false

/-- `u64::from_le_bytes`: little-endian value of a byte list. -/
def le64 (l : List Nat) : Nat :=
  l.foldr (fun b acc => b + 256 * acc) 0

/-- The `while idx < max` loop of `hash2u64`: xor in the little-endian value
of each consecutive 8-byte chunk, left to right. -/
def hashFoldGo (l : List Nat) (val : Nat) : Nat :=
  if l = [] then val else hashFoldGo (l.drop 8) (val ^^^ le64 (l.take 8))
termination_by l.length
decreasing_by
  rename_i h
  simp only [List.length_drop]
  have : 0 < l.length := List.length_pos.mpr h
  omega

/-- `hash2u64` (the inner function of `in_group_for_hash`): panic
(`none`, "bad hash") unless the byte length is a multiple of 8, else
xor-fold the 8-byte little-endian chunks starting from 0. -/
def hash2u64 (bytes : List Nat) : Option Nat :=
  if bytes.length % 8 ≠ 0 then none else some (hashFoldGo bytes 0)

/-- Modelled from the spec: the digest type `Hash` (defined outside `src/`)
is a fixed-length 32-byte opaque byte-string; `to_bytes` yields its bytes. -/
structure Hash where
  bytes : List Nat
  length_eq : bytes.length = 32
  bytes_lt : ∀ b ∈ bytes, b < 256

/-- `in_group_for_hash`: derive the seed from the digest, then query. -/
def VoteGroupGenerator.in_group_for_hash (g : VoteGroupGenerator)
    (hash : Hash) (test_key : Pubkey) : Option Bool :=
  match hash2u64 hash.bytes with
  | none => none
  | some seed => g.in_group_for_seed seed test_key

/-- The seed derivation as the spec words it: read the 32-byte digest as four
consecutive 8-byte little-endian chunks and xor them left to right. -/
def specSeedOfDigest (h : Hash) : Nat :=
  ((le64 (h.bytes.take 8) ^^^ le64 ((h.bytes.drop 8).take 8)) ^^^
      le64 ((h.bytes.drop 16).take 8)) ^^^
    le64 ((h.bytes.drop 24).take 8)

/-- The step-distance list as the spec words it: the value 1 first, then the
table entries strictly less than `votersLen` that do not evenly divide
`votersLen`. -/
def specStepCandidates (votersLen : Nat) : List Nat :=
  1 :: DISTANCE_TABLE.filter
    (fun val => decide (val < votersLen) && decide (¬ val ∣ votersLen))

example : (VoteGroupGenerator.new [10, 20, 30] 2).possible_voters =
    [10, 20, 30] := by decide
example : (VoteGroupGenerator.new [10, 20, 30] 2).all_distance = [1, 2] := by
  decide
example : (VoteGroupGenerator.new [10, 20, 30] 2).in_group_for_seed 1 20 =
    some true := by decide
example : (VoteGroupGenerator.new [10, 20, 30] 2).in_group_for_seed 1 30 =
    some false := by decide
example : (VoteGroupGenerator.new [10, 20, 30] 3).in_group_for_seed 1 30 =
    some true := by decide
example : VoteGroupGenerator.new_dummy.in_group_for_seed 0 5 = none := by
  decide

/-! ### Unfolding lemmas for `VoteGroupGenerator.new` -/

lemma new_possible_voters (keys : List Pubkey) (size : Nat) :
    (VoteGroupGenerator.new keys size).possible_voters =
      keys.filter (fun k => k != SAFECOIN_NEVER_VOTER) := rfl

lemma new_group_size (keys : List Pubkey) (size : Nat) :
    (VoteGroupGenerator.new keys size).group_size = size := rfl

lemma new_all_distance (keys : List Pubkey) (size : Nat) :
    (VoteGroupGenerator.new keys size).all_distance =
      1 :: DISTANCE_TABLE.filter
        (fun val =>
          decide ((keys.filter (fun k => k != SAFECOIN_NEVER_VOTER)).length %
              2 ^ 32 > val) &&
          ((keys.filter (fun k => k != SAFECOIN_NEVER_VOTER)).length %
              2 ^ 32 % val != 0)) := rfl

lemma new_all_distance_ne_nil (keys : List Pubkey) (size : Nat) :
    (VoteGroupGenerator.new keys size).all_distance ≠ [] := by
  rw [new_all_distance]; exact List.cons_ne_nil _ _

/-! ### The stepping loop -/

lemma in_group_loop_zero (g : VoteGroupGenerator) (c : Pubkey)
    (dist loc : Nat) : g.in_group_loop c dist loc 0 = some false := rfl

lemma in_group_loop_succ_of_none (g : VoteGroupGenerator) (c : Pubkey)
    (dist loc fuel : Nat)
    (hg : g.possible_voters.get? (g.ring_shift loc dist) = none) :
    g.in_group_loop c dist loc (fuel + 1) = none := by
  simp only [VoteGroupGenerator.in_group_loop, hg]

lemma in_group_loop_succ_of_some (g : VoteGroupGenerator) (c : Pubkey)
    (dist loc fuel : Nat) (key : Pubkey)
    (hg : g.possible_voters.get? (g.ring_shift loc dist) = some key) :
    g.in_group_loop c dist loc (fuel + 1) =
      if c = key then some true
      else g.in_group_loop c dist (g.ring_shift loc dist) fuel := by
  simp only [VoteGroupGenerator.in_group_loop, hg]

lemma in_group_loop_isSome (g : VoteGroupGenerator) (c : Pubkey) (dist : Nat)
    (hn : 0 < g.possible_voters.length) :
    ∀ fuel loc, (g.in_group_loop c dist loc fuel).isSome := by
  intro fuel
  induction fuel with
  | zero => intro loc; rw [in_group_loop_zero]; rfl
  | succ k ih =>
    intro loc
    have hlt : g.ring_shift loc dist < g.possible_voters.length :=
      Nat.mod_lt _ hn
    rw [in_group_loop_succ_of_some g c dist loc k _ (List.get?_eq_get hlt)]
    by_cases hc : c = g.possible_voters.get ⟨g.ring_shift loc dist, hlt⟩
    · rw [if_pos hc]; rfl
    · rw [if_neg hc]; exact ih _

lemma in_group_loop_true_mem (g : VoteGroupGenerator) (c : Pubkey)
    (dist : Nat) :
    ∀ fuel loc, g.in_group_loop c dist loc fuel = some true →
      c ∈ g.possible_voters := by
  intro fuel
  induction fuel with
  | zero => intro loc h; rw [in_group_loop_zero] at h; exact absurd h (by simp)
  | succ k ih =>
    intro loc h
    rcases hg : g.possible_voters.get? (g.ring_shift loc dist) with _ | key
    · rw [in_group_loop_succ_of_none g c dist loc k hg] at h
      exact absurd h (by simp)
    · rw [in_group_loop_succ_of_some g c dist loc k key hg] at h
      by_cases hc : c = key
      · exact hc ▸ List.get?_mem hg
      · rw [if_neg hc] at h
        exact ih _ h

lemma in_group_loop_eq_true_iff (g : VoteGroupGenerator) (c : Pubkey)
    (dist : Nat) (hn : 0 < g.possible_voters.length) :
    ∀ fuel loc, (g.in_group_loop c dist loc fuel = some true ↔
      ∃ k, 1 ≤ k ∧ k ≤ fuel ∧
        g.possible_voters.get?
          ((loc + k * dist) % g.possible_voters.length) = some c) := by
  intro fuel
  induction fuel with
  | zero =>
    intro loc
    rw [in_group_loop_zero]
    constructor
    · intro h; exact absurd h (by simp)
    · rintro ⟨k, hk1, hk0, -⟩; omega
  | succ m ih =>
    intro loc
    have hlt : g.ring_shift loc dist < g.possible_voters.length :=
      Nat.mod_lt _ hn
    have hg := List.get?_eq_get hlt
    set key := g.possible_voters.get ⟨g.ring_shift loc dist, hlt⟩ with hkey
    rw [in_group_loop_succ_of_some g c dist loc m key hg]
    have hone : (loc + 1 * dist) % g.possible_voters.length =
        g.ring_shift loc dist := by
      rw [one_mul]; rfl
    have hidx : ∀ k : Nat, (g.ring_shift loc dist + k * dist) %
        g.possible_voters.length =
        (loc + (k + 1) * dist) % g.possible_voters.length := by
      intro k
      show ((loc + dist) % g.possible_voters.length + k * dist) %
          g.possible_voters.length = _
      rw [Nat.mod_add_mod]
      congr 1
      ring
    by_cases hc : c = key
    · rw [if_pos hc]
      constructor
      · intro _
        exact ⟨1, le_refl 1, by omega, by rw [hone, hg, hc]⟩
      · intro _; rfl
    · rw [if_neg hc, ih]
      constructor
      · rintro ⟨k, hk1, hkm, hget⟩
        exact ⟨k + 1, by omega, by omega, by rw [← hidx k]; exact hget⟩
      · rintro ⟨k, hk1, hkm, hget⟩
        match k, hk1, hkm with
        | 1, _, _ =>
          rw [hone, hg] at hget
          exact absurd (by injection hget with h2; exact h2.symm) hc
        | k0 + 2, _, hkm =>
          refine ⟨k0 + 1, by omega, by omega, ?_⟩
          rw [hidx (k0 + 1)]
          exact hget

/-! ### `in_group_for_seed` -/

lemma in_group_for_seed_of_empty (g : VoteGroupGenerator) (seed : Nat)
    (c : Pubkey) (h : g.possible_voters.length = 0) :
    g.in_group_for_seed seed c = none := by
  simp [VoteGroupGenerator.in_group_for_seed, rustMod, h]

lemma in_group_for_seed_unfold (g : VoteGroupGenerator) (seed : Nat)
    (c : Pubkey) (hn : 0 < g.possible_voters.length) :
    g.in_group_for_seed seed c =
      if c = g.possible_voters.get
          ⟨seed % g.possible_voters.length, Nat.mod_lt seed hn⟩ then some true
      else if 1 < g.group_size then
        match rustMod seed g.all_distance.length with
        | none => none
        | some choose_dist =>
          match g.all_distance.get? choose_dist with
          | none => none
          | some dist =>
            g.in_group_loop c dist (seed % g.possible_voters.length)
              (g.group_size - 1)
      else some false := by
  simp only [VoteGroupGenerator.in_group_for_seed, rustMod,
    if_neg (by omega : ¬ g.possible_voters.length = 0),
    List.get?_eq_get (Nat.mod_lt seed hn)]

lemma in_group_for_seed_unfold_full (g : VoteGroupGenerator) (seed : Nat)
    (c : Pubkey) (hn : 0 < g.possible_voters.length)
    (hd : 0 < g.all_distance.length) :
    g.in_group_for_seed seed c =
      if c = g.possible_voters.get
          ⟨seed % g.possible_voters.length, Nat.mod_lt seed hn⟩ then some true
      else if 1 < g.group_size then
        g.in_group_loop c
          (g.all_distance.get ⟨seed % g.all_distance.length, Nat.mod_lt seed hd⟩)
          (seed % g.possible_voters.length) (g.group_size - 1)
      else some false := by
  rw [in_group_for_seed_unfold g seed c hn]
  simp only [rustMod, if_neg (by omega : ¬ g.all_distance.length = 0),
    List.get?_eq_get (Nat.mod_lt seed hd)]

lemma in_group_for_seed_true_mem (g : VoteGroupGenerator) (seed : Nat)
    (c : Pubkey) (hd : 0 < g.all_distance.length)
    (h : g.in_group_for_seed seed c = some true) :
    c ∈ g.possible_voters := by
  rcases Nat.eq_zero_or_pos g.possible_voters.length with h0 | hn
  · rw [in_group_for_seed_of_empty g seed c h0] at h
    exact absurd h (by simp)
  · rw [in_group_for_seed_unfold_full g seed c hn hd] at h
    by_cases hc : c = g.possible_voters.get
        ⟨seed % g.possible_voters.length, Nat.mod_lt seed hn⟩
    · exact hc ▸ List.get_mem _ _ _
    · rw [if_neg hc] at h
      by_cases hgs : 1 < g.group_size
      · rw [if_pos hgs] at h
        exact in_group_loop_true_mem g c _ _ _ h
      · rw [if_neg hgs] at h
        exact absurd h (by simp)

lemma in_group_for_seed_ne_none (g : VoteGroupGenerator) (seed : Nat)
    (c : Pubkey) (hn : 0 < g.possible_voters.length)
    (hd : 0 < g.all_distance.length) :
    g.in_group_for_seed seed c ≠ none := by
  rw [in_group_for_seed_unfold_full g seed c hn hd]
  by_cases hc : c = g.possible_voters.get
      ⟨seed % g.possible_voters.length, Nat.mod_lt seed hn⟩
  · simp [hc]
  · rw [if_neg hc]
    by_cases hgs : 1 < g.group_size
    · rw [if_pos hgs]
      have := in_group_loop_isSome g c
        (g.all_distance.get ⟨seed % g.all_distance.length, Nat.mod_lt seed hd⟩)
        hn (g.group_size - 1) (seed % g.possible_voters.length)
      intro hcontra
      rw [hcontra] at this
      exact absurd this (by simp)
    · simp [if_neg hgs]

/-- Full ring-stepping characterization of a query, over an arbitrary
generator with non-empty `possible_voters` and non-empty `all_distance`
(the latter holds for every generator built by `new`). -/
lemma in_group_for_seed_spec (g : VoteGroupGenerator) (seed : Nat)
    (c : Pubkey) (hn : 0 < g.possible_voters.length)
    (hd : 0 < g.all_distance.length) :
    g.in_group_for_seed seed c = some true ↔
      g.possible_voters.get? (seed % g.possible_voters.length) = some c ∨
      (1 < g.group_size ∧ ∃ k, 1 ≤ k ∧ k ≤ g.group_size - 1 ∧
        g.possible_voters.get?
          ((seed % g.possible_voters.length +
            k * g.all_distance.getD (seed % g.all_distance.length) 0) %
            g.possible_voters.length) = some c) := by
  have hget : g.possible_voters.get? (seed % g.possible_voters.length) =
      some (g.possible_voters.get
        ⟨seed % g.possible_voters.length, Nat.mod_lt seed hn⟩) :=
    List.get?_eq_get (Nat.mod_lt seed hn)
  have hgetd : g.all_distance.getD (seed % g.all_distance.length) 0 =
      g.all_distance.get ⟨seed % g.all_distance.length, Nat.mod_lt seed hd⟩ := by
    rw [List.getD, List.get?_eq_get (Nat.mod_lt seed hd)]
    rfl
  rw [in_group_for_seed_unfold_full g seed c hn hd, hget, hgetd]
  by_cases hc : c = g.possible_voters.get
      ⟨seed % g.possible_voters.length, Nat.mod_lt seed hn⟩
  · rw [if_pos hc]
    constructor
    · intro _
      exact Or.inl (by rw [← hc])
    · intro _
      rfl
  · rw [if_neg hc]
    have hleft : ¬ (some (g.possible_voters.get
        ⟨seed % g.possible_voters.length, Nat.mod_lt seed hn⟩) = some c) := by
      intro hcontra
      exact hc (by injection hcontra with h2; exact h2.symm)
    by_cases hgs : 1 < g.group_size
    · rw [if_pos hgs,
        in_group_loop_eq_true_iff g c _ hn (g.group_size - 1)
          (seed % g.possible_voters.length)]
      constructor
      · intro hex; exact Or.inr ⟨hgs, hex⟩
      · rintro (hcontra | ⟨-, hex⟩)
        · exact absurd hcontra hleft
        · exact hex
    · rw [if_neg hgs]
      constructor
      · intro hcontra; exact absurd hcontra (by simp)
      · rintro (hcontra | ⟨hcontra, -⟩)
        · exact absurd hcontra hleft
        · exact absurd hcontra hgs

/-! ### Claim theorems -/

/-- C1: the spec requires a query against a selector with an empty voter
list to return `false` without faulting; the code instead evaluates
`seed % voters_len` with `voters_len = 0`, a division-by-zero panic
(modelled as `none`), for every seed and candidate. -/
theorem c1_empty_selector_query_faults (g : VoteGroupGenerator)
    (h : g.possible_voters = []) (seed : Nat) (c : Pubkey) :
    g.in_group_for_seed seed c = none :=
  in_group_for_seed_of_empty g seed c (by rw [h]; rfl)

/-- C1 witness: the faulting behavior at a concrete empty selector
(`new_dummy`, built from an empty map). -/
theorem c1_empty_selector_query_faults_witness :
    VoteGroupGenerator.new_dummy.possible_voters = [] ∧
    VoteGroupGenerator.new_dummy.in_group_for_seed 0 0 = none :=
  ⟨rfl, c1_empty_selector_query_faults VoteGroupGenerator.new_dummy rfl 0 0⟩

/-- C10: for every built selector `all_distance` starts with `1`, hence is
non-empty, so the stride selection `seed % all_distance.len()` is a
well-defined (non-faulting) modulus for every seed — including selectors
built from an empty input. -/
theorem c10_all_distance_never_empty (keys : List Pubkey) (size : Nat) :
    (VoteGroupGenerator.new keys size).all_distance.head? = some 1 ∧
    0 < (VoteGroupGenerator.new keys size).all_distance.length ∧
    ∀ seed : Nat,
      rustMod seed (VoteGroupGenerator.new keys size).all_distance.length =
        some (seed %
          (VoteGroupGenerator.new keys size).all_distance.length) := by
  refine ⟨rfl, ?_, ?_⟩
  · rw [new_all_distance]; simp
  · intro seed
    rw [rustMod, if_neg]
    rw [new_all_distance]; simp

/-- Queries agree for two generators sharing the voter list whose group
sizes are both at most 1: the stepping loop is skipped in both. -/
lemma low_group_size_query_eq (pv : List Pubkey) (ad1 ad2 : List Nat)
    (s1 s2 : Nat) (h1 : s1 ≤ 1) (h2 : s2 ≤ 1) (seed : Nat) (c : Pubkey) :
    (VoteGroupGenerator.mk pv ad1 s1).in_group_for_seed seed c =
      (VoteGroupGenerator.mk pv ad2 s2).in_group_for_seed seed c := by
  rcases Nat.eq_zero_or_pos pv.length with h0 | hn
  · rw [in_group_for_seed_of_empty (VoteGroupGenerator.mk pv ad1 s1) seed c h0,
      in_group_for_seed_of_empty (VoteGroupGenerator.mk pv ad2 s2) seed c h0]
  · rw [in_group_for_seed_unfold (VoteGroupGenerator.mk pv ad1 s1) seed c hn,
      in_group_for_seed_unfold (VoteGroupGenerator.mk pv ad2 s2) seed c hn]
    dsimp only
    by_cases hc : c = pv.get ⟨seed % pv.length, Nat.mod_lt seed hn⟩
    · rw [if_pos hc, if_pos hc]
    · rw [if_neg hc, if_neg hc, if_neg (by omega : ¬ 1 < s1),
        if_neg (by omega : ¬ 1 < s2)]

/-- C8: selectors built from the same input with `group_size = 0` and
`group_size = 1` answer every query identically (the loop guard
`group_size > 1` fails for both, so only the initial index is checked). -/
theorem c8_group_size_zero_eq_one (keys : List Pubkey) (seed : Nat)
    (c : Pubkey) :
    (VoteGroupGenerator.new keys 0).in_group_for_seed seed c =
      (VoteGroupGenerator.new keys 1).in_group_for_seed seed c :=
  low_group_size_query_eq _ _ _ 0 1 (by omega) (by omega) seed c

/-- C2: for a selector built by `new` with a non-empty voter list of length
`n`, a query returns `true` exactly when the candidate sits at index
`seed % n`, or `group_size > 1` and it sits at `(seed % n + k*d) % n` for
some `1 ≤ k ≤ group_size - 1`, where
`d = all_distance[seed % all_distance.len()]`; and the query never
faults. -/
theorem c2_ring_membership_characterization (keys : List Pubkey)
    (size seed : Nat) (c : Pubkey)
    (hv : (VoteGroupGenerator.new keys size).possible_voters ≠ []) :
    ((VoteGroupGenerator.new keys size).in_group_for_seed seed c =
        some true ↔
      (VoteGroupGenerator.new keys size).possible_voters.get?
        (seed % (VoteGroupGenerator.new keys size).possible_voters.length) =
        some c ∨
      (1 < size ∧ ∃ k, 1 ≤ k ∧ k ≤ size - 1 ∧
        (VoteGroupGenerator.new keys size).possible_voters.get?
          ((seed % (VoteGroupGenerator.new keys size).possible_voters.length +
            k * (VoteGroupGenerator.new keys size).all_distance.getD
              (seed % (VoteGroupGenerator.new keys size).all_distance.length)
              0) %
            (VoteGroupGenerator.new keys size).possible_voters.length) =
          some c)) ∧
    (VoteGroupGenerator.new keys size).in_group_for_seed seed c ≠ none := by
  have hn : 0 < (VoteGroupGenerator.new keys size).possible_voters.length :=
    List.length_pos.mpr hv
  have hd : 0 < (VoteGroupGenerator.new keys size).all_distance.length := by
    rw [new_all_distance]; simp
  refine ⟨?_, in_group_for_seed_ne_none _ seed c hn hd⟩
  rw [in_group_for_seed_spec _ seed c hn hd, new_group_size]

/-- C2 witness: hypotheses are satisfiable at a concrete selector. -/
theorem c2_ring_membership_characterization_witness :
    (VoteGroupGenerator.new [10, 20, 30] 2).possible_voters ≠ [] ∧
    (VoteGroupGenerator.new [10, 20, 30] 2).in_group_for_seed 1 20 ≠ none :=
  ⟨by decide,
    (c2_ring_membership_characterization [10, 20, 30] 2 1 20 (by decide)).2⟩

/-- C3: building with `group_size = voters.len()` and querying with seed 0
finds every non-sentinel identity of the input (stride 1 walks the whole
ring from index 0). -/
theorem c3_full_coverage_seed_zero (keys : List Pubkey) (c : Pubkey)
    (hmem : c ∈ keys) (hc : c ≠ SAFECOIN_NEVER_VOTER) :
    (VoteGroupGenerator.new keys
        (keys.filter (fun k => k != SAFECOIN_NEVER_VOTER)).length
      ).in_group_for_seed 0 c = some true := by
  have hcpv : c ∈ keys.filter (fun k => k != SAFECOIN_NEVER_VOTER) :=
    List.mem_filter.mpr ⟨hmem, bne_iff_ne.mpr hc⟩
  have hn : 0 < (keys.filter (fun k => k != SAFECOIN_NEVER_VOTER)).length :=
    List.length_pos.mpr (List.ne_nil_of_mem hcpv)
  obtain ⟨⟨idx, hidx⟩, hget⟩ := List.mem_iff_get.mp hcpv
  have hd : 0 < (VoteGroupGenerator.new keys
      (keys.filter (fun k => k != SAFECOIN_NEVER_VOTER)).length
        ).all_distance.length := by
    rw [new_all_distance]; simp
  apply (in_group_for_seed_spec _ 0 c hn hd).mpr
  have hd0 : (VoteGroupGenerator.new keys
      (keys.filter (fun k => k != SAFECOIN_NEVER_VOTER)).length
        ).all_distance.getD (0 % (VoteGroupGenerator.new keys
      (keys.filter (fun k => k != SAFECOIN_NEVER_VOTER)).length
        ).all_distance.length) 0 = 1 := by
    rw [Nat.zero_mod, new_all_distance]; rfl
  have hgs : (VoteGroupGenerator.new keys
      (keys.filter (fun k => k != SAFECOIN_NEVER_VOTER)).length).group_size =
      (keys.filter (fun k => k != SAFECOIN_NEVER_VOTER)).length :=
    new_group_size _ _
  rcases Nat.eq_zero_or_pos idx with rfl | hpos
  · left
    show (keys.filter (fun k => k != SAFECOIN_NEVER_VOTER)).get?
      (0 % (keys.filter (fun k => k != SAFECOIN_NEVER_VOTER)).length) = some c
    rw [Nat.zero_mod, List.get?_eq_get hidx, hget]
  · right
    refine ⟨by omega, idx, hpos, by omega, ?_⟩
    rw [hd0, mul_one]
    show (keys.filter (fun k => k != SAFECOIN_NEVER_VOTER)).get?
      ((0 % (keys.filter (fun k => k != SAFECOIN_NEVER_VOTER)).length + idx) %
        (keys.filter (fun k => k != SAFECOIN_NEVER_VOTER)).length) = some c
    rw [Nat.zero_mod, Nat.zero_add, Nat.mod_eq_of_lt hidx,
      List.get?_eq_get hidx, hget]

/-- C3 witness: all five identities of a concrete five-element input are
found at seed 0 with `group_size = voters.len()`; shown here for one of
them, with the hypotheses discharged concretely. -/
theorem c3_full_coverage_seed_zero_witness :
    (VoteGroupGenerator.new [10, 20, 30, 40, 50]
        (([10, 20, 30, 40, 50] : List Pubkey).filter
          (fun k => k != SAFECOIN_NEVER_VOTER)).length
      ).in_group_for_seed 0 30 = some true :=
  c3_full_coverage_seed_zero [10, 20, 30, 40, 50] 30 (by decide) (by decide)

/-- C4 counterexample: when the input contains only the sentinel, the built
voter list is empty and the query for the sentinel faults (division by
zero, `none`) instead of returning `false` as the claim states. -/
theorem c4_sentinel_only_input_faults :
    (VoteGroupGenerator.new [SAFECOIN_NEVER_VOTER] 3).in_group_for_seed 0
        SAFECOIN_NEVER_VOTER = none ∧
    ¬ (VoteGroupGenerator.new [SAFECOIN_NEVER_VOTER] 3).in_group_for_seed 0
        SAFECOIN_NEVER_VOTER = some false := by
  decide

/-- C4 amended: the sentinel is never reported as a member (the query never
returns `true` for it); whenever the input also contains a non-sentinel
identity — equivalently, the built voter list is non-empty — the query
returns `false` for the sentinel at every seed. -/
theorem c4_sentinel_never_selected (keys : List Pubkey) (size seed : Nat)
    (_hs : SAFECOIN_NEVER_VOTER ∈ keys) :
    (VoteGroupGenerator.new keys size).in_group_for_seed seed
        SAFECOIN_NEVER_VOTER ≠ some true ∧
    ((VoteGroupGenerator.new keys size).possible_voters ≠ [] →
      (VoteGroupGenerator.new keys size).in_group_for_seed seed
          SAFECOIN_NEVER_VOTER = some false) := by
  have hd : 0 < (VoteGroupGenerator.new keys size).all_distance.length := by
    rw [new_all_distance]; simp
  have hnotmem : SAFECOIN_NEVER_VOTER ∉
      (VoteGroupGenerator.new keys size).possible_voters := by
    rw [new_possible_voters]
    intro hmemf
    have h2 := (List.mem_filter.mp hmemf).2
    simp [bne_iff_ne] at h2
  have hnt : (VoteGroupGenerator.new keys size).in_group_for_seed seed
      SAFECOIN_NEVER_VOTER ≠ some true :=
    fun h => hnotmem (in_group_for_seed_true_mem _ seed _ hd h)
  refine ⟨hnt, fun hv => ?_⟩
  have hn : 0 < (VoteGroupGenerator.new keys size).possible_voters.length :=
    List.length_pos.mpr hv
  have hnn := in_group_for_seed_ne_none (VoteGroupGenerator.new keys size)
    seed SAFECOIN_NEVER_VOTER hn hd
  rcases hres : (VoteGroupGenerator.new keys size).in_group_for_seed seed
      SAFECOIN_NEVER_VOTER with _ | b
  · exact absurd hres hnn
  · cases b
    · rfl
    · exact absurd hres hnt

/-- C4 witness: with the sentinel and one real identity in the input, the
sentinel tests `false`. -/
theorem c4_sentinel_never_selected_witness :
    (VoteGroupGenerator.new [SAFECOIN_NEVER_VOTER, 10] 2).in_group_for_seed 7
        SAFECOIN_NEVER_VOTER = some false :=
  (c4_sentinel_never_selected [SAFECOIN_NEVER_VOTER, 10] 2 7
    (by decide)).2 (by decide)

/-- C9 counterexample: a candidate absent from an empty input should,
per the claim, test `false`; the query faults (`none`) instead. -/
theorem c9_nonmember_empty_selector_faults :
    (10 : Pubkey) ∉ ([] : List Pubkey) ∧
    (VoteGroupGenerator.new ([] : List Pubkey) 1).in_group_for_seed 0 10 =
      none ∧
    ¬ (VoteGroupGenerator.new ([] : List Pubkey) 1).in_group_for_seed 0 10 =
      some false := by
  decide

/-- C9 amended: a candidate that never occurs in the input is never reported
as a member (the query never returns `true`); whenever the built voter list
is non-empty the query returns `false` for it at every seed. -/
theorem c9_nonmember_never_selected (keys : List Pubkey) (size : Nat)
    (c : Pubkey) (hc : c ∉ keys) (seed : Nat) :
    (VoteGroupGenerator.new keys size).in_group_for_seed seed c ≠
        some true ∧
    ((VoteGroupGenerator.new keys size).possible_voters ≠ [] →
      (VoteGroupGenerator.new keys size).in_group_for_seed seed c =
        some false) := by
  have hd : 0 < (VoteGroupGenerator.new keys size).all_distance.length := by
    rw [new_all_distance]; simp
  have hnotmem : c ∉ (VoteGroupGenerator.new keys size).possible_voters := by
    rw [new_possible_voters]
    intro hmemf
    exact hc (List.mem_filter.mp hmemf).1
  have hnt : (VoteGroupGenerator.new keys size).in_group_for_seed seed c ≠
      some true :=
    fun h => hnotmem (in_group_for_seed_true_mem _ seed _ hd h)
  refine ⟨hnt, fun hv => ?_⟩
  have hn : 0 < (VoteGroupGenerator.new keys size).possible_voters.length :=
    List.length_pos.mpr hv
  have hnn := in_group_for_seed_ne_none (VoteGroupGenerator.new keys size)
    seed c hn hd
  rcases hres : (VoteGroupGenerator.new keys size).in_group_for_seed seed c
    with _ | b
  · exact absurd hres hnn
  · cases b
    · rfl
    · exact absurd hres hnt

/-- C9 witness: an unrelated identity tests `false` against a concrete
two-voter selector. -/
theorem c9_nonmember_never_selected_witness :
    (VoteGroupGenerator.new [10, 20] 2).in_group_for_seed 5 30 = some false :=
  (c9_nonmember_never_selected [10, 20] 2 30 (by decide) 5).2 (by decide)

/-- C5 counterexample: two inputs that are equal as identity sets but are
iterated in different orders (unordered-map iteration order is not
canonical) yield selectors that disagree on a query, so build is not
determined by the input set alone. -/
theorem c5_map_order_breaks_determinism :
    ([10, 20] : List Pubkey).toFinset = ([20, 10] : List Pubkey).toFinset ∧
    (VoteGroupGenerator.new [10, 20] 1).in_group_for_seed 0 10 =
      some true ∧
    (VoteGroupGenerator.new [20, 10] 1).in_group_for_seed 0 10 =
      some false := by
  refine ⟨by decide, by decide, by decide⟩

/-- C5 amended: query-by-seed results are a function of the input's
non-sentinel key sequence in iteration order (plus `group_size`): two builds
whose filtered key sequences coincide answer every query identically.
Equality of the inputs as unordered sets does not suffice. -/
theorem c5_query_determined_by_voter_sequence (l1 l2 : List Pubkey)
    (size : Nat)
    (h : l1.filter (fun k => k != SAFECOIN_NEVER_VOTER) =
      l2.filter (fun k => k != SAFECOIN_NEVER_VOTER))
    (seed : Nat) (c : Pubkey) :
    (VoteGroupGenerator.new l1 size).in_group_for_seed seed c =
      (VoteGroupGenerator.new l2 size).in_group_for_seed seed c := by
  have hnew : VoteGroupGenerator.new l1 size =
      VoteGroupGenerator.new l2 size := by
    simp only [VoteGroupGenerator.new, h]
  rw [hnew]

/-- C5 witness: sentinel position differs but the filtered sequences agree,
so the queries agree. -/
theorem c5_query_determined_by_voter_sequence_witness :
    (VoteGroupGenerator.new [SAFECOIN_NEVER_VOTER, 10] 4).in_group_for_seed
        3 10 =
      (VoteGroupGenerator.new [10, SAFECOIN_NEVER_VOTER] 4).in_group_for_seed
        3 10 :=
  c5_query_determined_by_voter_sequence _ _ 4 (by decide) 3 10

/-- C6 counterexample: `new` computes the distance table from
`temp.len() as u32`; with `2 ^ 32 + 1` distinct non-sentinel keys the
truncated length is `1`, every table entry is filtered out, and
`all_distance = [1]`, while the spec's description (computed from the true
`voters.len()`) keeps the whole table. -/
theorem c6_distance_table_u32_truncation :
    (VoteGroupGenerator.new (List.range (2 ^ 32 + 1)) 11).all_distance ≠
      specStepCandidates (VoteGroupGenerator.new (List.range (2 ^ 32 + 1))
        11).possible_voters.length := by
  have hfilter : (List.range (2 ^ 32 + 1)).filter
      (fun k => k != SAFECOIN_NEVER_VOTER) = List.range (2 ^ 32 + 1) := by
    apply List.filter_eq_self.mpr
    intro x hx
    have hlt : x < 2 ^ 32 + 1 := List.mem_range.mp hx
    have hne : x ≠ SAFECOIN_NEVER_VOTER := by
      intro heq
      rw [heq] at hlt
      exact absurd hlt (by decide)
    exact bne_iff_ne.mpr hne
  have hpv : (VoteGroupGenerator.new (List.range (2 ^ 32 + 1))
      11).possible_voters.length = 2 ^ 32 + 1 := by
    rw [new_possible_voters, hfilter, List.length_range]
  have had : (VoteGroupGenerator.new (List.range (2 ^ 32 + 1))
      11).all_distance = [1] := by
    rw [new_all_distance, hfilter, List.length_range]
    decide
  rw [had, hpv]
  decide

/-- C6 amended: whenever the voter list is shorter than `2 ^ 32` (so the
`as u32` cast is lossless), `all_distance` is exactly the spec's list: 1
first, then the table entries strictly less than `voters.len()` that do not
evenly divide `voters.len()`. -/
theorem c6_all_distance_matches_spec (keys : List Pubkey) (size : Nat)
    (h : (VoteGroupGenerator.new keys size).possible_voters.length < 2 ^ 32) :
    (VoteGroupGenerator.new keys size).all_distance =
      specStepCandidates
        (VoteGroupGenerator.new keys size).possible_voters.length := by
  rw [new_all_distance, specStepCandidates, new_possible_voters]
  have hlen : (keys.filter (fun k => k != SAFECOIN_NEVER_VOTER)).length %
      2 ^ 32 = (keys.filter (fun k => k != SAFECOIN_NEVER_VOTER)).length :=
    Nat.mod_eq_of_lt h
  rw [hlen]
  congr 1
  apply List.filter_congr
  intro v hv
  have hvpos : 0 < v := by
    have hall : ∀ x ∈ DISTANCE_TABLE, 0 < x := by decide
    exact hall v hv
  rw [Bool.eq_iff_iff]
  simp only [Bool.and_eq_true, decide_eq_true_eq, bne_iff_ne, ne_eq,
    gt_iff_lt, Nat.dvd_iff_mod_eq_zero]

/-- C6 witness: the truncation hypothesis holds at a concrete three-voter
input and the lists agree. -/
theorem c6_all_distance_matches_spec_witness :
    (VoteGroupGenerator.new [10, 20, 30] 7).all_distance =
      specStepCandidates
        (VoteGroupGenerator.new [10, 20, 30] 7).possible_voters.length :=
  c6_all_distance_matches_spec [10, 20, 30] 7 (by decide)

/-! ### Seed derivation from a digest -/

lemma hashFoldGo_nil (v : Nat) : hashFoldGo [] v = v := by
  rw [hashFoldGo]
  simp

lemma hashFoldGo_ne_nil (l : List Nat) (v : Nat) (h : l ≠ []) :
    hashFoldGo l v = hashFoldGo (l.drop 8) (v ^^^ le64 (l.take 8)) := by
  rw [hashFoldGo]
  rw [if_neg h]

lemma hashFoldGo32 (l : List Nat) (hl : l.length = 32) :
    hashFoldGo l 0 =
      ((le64 (l.take 8) ^^^ le64 ((l.drop 8).take 8)) ^^^
        le64 ((l.drop 16).take 8)) ^^^ le64 ((l.drop 24).take 8) := by
  have hlen : ∀ n : Nat, (l.drop n).length = 32 - n := by
    intro n; rw [List.length_drop, hl]
  have h0 : l ≠ [] := by
    intro h; rw [h] at hl; simp at hl
  have h8 : l.drop 8 ≠ [] := by
    intro h
    have := congrArg List.length h
    rw [hlen 8] at this
    simp at this
  have h16 : l.drop 16 ≠ [] := by
    intro h
    have := congrArg List.length h
    rw [hlen 16] at this
    simp at this
  have h24 : l.drop 24 ≠ [] := by
    intro h
    have := congrArg List.length h
    rw [hlen 24] at this
    simp at this
  have e32 : l.drop 32 = [] := List.drop_eq_nil_of_le (by rw [hl])
  rw [hashFoldGo_ne_nil l 0 h0, hashFoldGo_ne_nil _ _ h8, List.drop_drop,
    show (8 + 8 : Nat) = 16 from rfl, hashFoldGo_ne_nil _ _ h16,
    List.drop_drop, show (16 + 8 : Nat) = 24 from rfl,
    hashFoldGo_ne_nil _ _ h24, List.drop_drop,
    show (24 + 8 : Nat) = 32 from rfl, e32, hashFoldGo_nil, Nat.zero_xor]

/-- C7: for every selector, 32-byte digest and candidate, the hash query
equals the seed query at the xor of the digest's four 8-byte little-endian
chunks, and the seed derivation never takes the bad-length panic path. -/
theorem c7_hash_query_eq_seed_query (g : VoteGroupGenerator) (h : Hash)
    (c : Pubkey) :
    hash2u64 h.bytes = some (specSeedOfDigest h) ∧
    g.in_group_for_hash h c = g.in_group_for_seed (specSeedOfDigest h) c := by
  have hlen : h.bytes.length % 8 = 0 := by rw [h.length_eq]
  have h2 : hash2u64 h.bytes = some (specSeedOfDigest h) := by
    rw [hash2u64, if_neg (by simp [hlen]), specSeedOfDigest,
      hashFoldGo32 h.bytes h.length_eq]
  refine ⟨h2, ?_⟩
  simp only [VoteGroupGenerator.in_group_for_hash, h2]
